import Mathlib

/-!
Shallow embedding of the `fused-lock-rs` crate (`src/lib.rs`).

The crate provides `FusedRwLock<T>`, a lock holding
  * `inner: parking_lot::RwLock<()>` — a unit rw-lock used only for blocking
    arbitration between writers and the fusing operation,
  * `locked: AtomicBool` — the monotone fuse flag,
  * `object: UnsafeCell<T>` — the payload.

In a sequential shallow embedding the unit rw-lock carries no data and only
arbitrates blocking, so the abstract state is the fuse flag together with the
payload.  References into the payload are modelled by returning the value they
point at; writing through a mutable reference or a write guard is modelled by
an explicit state-update function.  A Rust `panic!` (the `unwrap` in `read`)
is modelled by `Option`.
-/

structure FusedRwLock (T : Type) where
  locked : Bool
  object : T
  deriving DecidableEq, Repr

/-- `FusedRwLockGuard<'a, T>` from the source: a write guard holding the inner
unit rw-lock exclusively plus a mutable reference to the payload.  The field
`inner` records the payload value the guard's `Deref` observes at acquisition
time. -/
structure FusedRwLockGuard (T : Type) where
  inner : T
  deriving DecidableEq, Repr

namespace FusedRwLock

variable {T : Type}

/-- `pub const fn new(x: T) -> Self`: inner unlocked, `locked` false, payload `x`. -/
def new (x : T) : FusedRwLock T :=
  { locked := false, object := x }

/-- `pub fn into_inner(self) -> T`: moves the payload out, no synchronization. -/
def into_inner (s : FusedRwLock T) : T :=
  s.object

/-- `pub fn try_get_mut(&mut self) -> Option<&mut T>` translated literally from
the source: `if *self.locked.get_mut() { Some(self.object.get_mut()) } else { None }`.
Note the source tests `locked` directly (not its negation), although its doc
comment says it returns `None` if the lock has been locked for reading. -/
def try_get_mut (s : FusedRwLock T) : Option T :=
  if s.locked then some s.object else none

/-- `pub fn is_locked(&self) -> bool`: relaxed load of the fuse flag. -/
def is_locked (s : FusedRwLock T) : Bool :=
  s.locked

/-- `pub fn lock(&self)`: acquires `inner.read()` (released at end of the call,
so no lasting state change from it), then stores `true` into `locked` with
release ordering. -/
def lock (s : FusedRwLock T) : FusedRwLock T :=
  { s with locked := true }

/-- `pub fn try_read(&self) -> Option<&T>`: acquire-load of `locked`; if true,
a shared reference to the payload, else `None`. -/
def try_read (s : FusedRwLock T) : Option T :=
  if s.locked then some s.object else none

/-- `pub fn read(&self) -> &T`: `if !self.is_locked() { self.lock(); } self.try_read().unwrap()`.
Returns the `try_read` result (where `none` models the `unwrap` panic) together
with the state after the call. -/
def read (s : FusedRwLock T) : Option T × FusedRwLock T :=
  let s' := if s.is_locked then s else s.lock
  (s'.try_read, s')

/-- `pub fn try_write(&self) -> Option<FusedRwLockGuard<T>>`: fast-path check of
`is_locked`, then exclusive acquisition of the inner unit rw-lock, then the
re-check of `is_locked`; on success a guard viewing the payload.  The returned
state is the lock state as observable after the call (the inner unit rw-lock
held by a successful guard is released again when the guard drops and carries
no data). -/
def try_write (s : FusedRwLock T) : Option (FusedRwLockGuard T) × FusedRwLock T :=
  if s.is_locked then
    (none, s)
  else
    -- `let guard = self.inner.write();` — blocks, then holds the unit lock
    if s.is_locked then
      (none, s)
    else
      (some { inner := s.object }, s)

/-- Writing the value `v` through a held write guard's `DerefMut` (and then
dropping the guard, which releases the inner unit rw-lock and touches nothing
else). -/
def guard_set (s : FusedRwLock T) (v : T) : FusedRwLock T :=
  { s with object := v }

/-- One invocation of an operation of the public interface, for stating
monotonicity of the fuse flag over arbitrary call sequences.  `tryWriteOp v`
writes `v` through the guard when `try_write` succeeds; `tryGetMutOp v` writes
`v` through the mutable reference when `try_get_mut` returns one. -/
inductive Op (T : Type) where
  | lockOp : Op T
  | readOp : Op T
  | tryReadOp : Op T
  | tryWriteOp : T → Op T
  | isLockedOp : Op T
  | tryGetMutOp : T → Op T

/-- State effect of one operation. -/
def step (s : FusedRwLock T) : Op T → FusedRwLock T
  | .lockOp => s.lock
  | .readOp => (s.read).2
  | .tryReadOp => s
  | .tryWriteOp v =>
    match (s.try_write).1 with
    | some _ => s.guard_set v
    | none => (s.try_write).2
  | .isLockedOp => s
  | .tryGetMutOp v =>
    match s.try_get_mut with
    | some _ => { s with object := v }
    | none => s

/-- State after a sequence of operations. -/
def run (s : FusedRwLock T) : List (Op T) → FusedRwLock T
  | [] => s
  | op :: ops => run (s.step op) ops

/-- A sequence of write episodes: for each value in the list, acquire a write
guard via `try_write` (recording the payload the guard observes), write the
value through it, and drop the guard.  Returns the list of observed payloads
and the final state, or `none` if some acquisition fails. -/
def run_writes (s : FusedRwLock T) : List T → Option (List T × FusedRwLock T)
  | [] => some ([], s)
  | v :: vs =>
    match (s.try_write).1 with
    | none => none
    | some g =>
      match run_writes (s.guard_set v) vs with
      | none => none
      | some (obs, s') => some (g.inner :: obs, s')

end FusedRwLock

section Helpers

variable {T : Type}

/-- No single operation clears the fuse flag. -/
lemma step_locked_mono (s : FusedRwLock T) (op : FusedRwLock.Op T)
    (h : s.locked = true) : (s.step op).locked = true := by
  cases op <;>
    simp [FusedRwLock.step, FusedRwLock.lock, FusedRwLock.read,
      FusedRwLock.try_read, FusedRwLock.try_write, FusedRwLock.is_locked,
      FusedRwLock.guard_set, FusedRwLock.try_get_mut, h]

/-- No sequence of operations clears the fuse flag. -/
lemma run_locked_mono (s : FusedRwLock T) (ops : List (FusedRwLock.Op T))
    (h : s.locked = true) : (FusedRwLock.run s ops).locked = true := by
  induction ops generalizing s with
  | nil => exact h
  | cons op ops ih =>
    exact ih _ (step_locked_mono s op h)

/-- On an unfused state, `try_write` succeeds and the guard observes the
current payload. -/
lemma try_write_open (s : FusedRwLock T) (h : s.locked = false) :
    (s.try_write).1 = some { inner := s.object } := by
  simp [FusedRwLock.try_write, FusedRwLock.is_locked, h]

/-- On a fused state, `try_write` fails. -/
lemma try_write_fused (s : FusedRwLock T) (h : s.locked = true) :
    (s.try_write).1 = none := by
  simp [FusedRwLock.try_write, FusedRwLock.is_locked, h]

/-- The default value of `getLast?.getD` is irrelevant on a nonempty list. -/
lemma getLastD_default_irrel (w : T) (ws : List T) (a b : T) :
    (w :: ws).getLast?.getD a = (w :: ws).getLast?.getD b := by
  induction ws generalizing w with
  | nil => rfl
  | cons x xs ih =>
    rw [List.getLast?_cons_cons]
    exact ih x

/-- Characterisation of a whole sequence of pre-fuse write episodes: every
acquisition succeeds, each guard observes the value left by the previous
episode, and the final payload is the last written value. -/
lemma run_writes_open (s : FusedRwLock T) (vs : List T) (h : s.locked = false) :
    FusedRwLock.run_writes s vs =
      some ((s.object :: vs).dropLast,
        { locked := false, object := vs.getLastD s.object }) := by
  induction vs generalizing s with
  | nil =>
    cases s with
    | mk l o => cases l with
      | false => simp [FusedRwLock.run_writes]
      | true => cases h
  | cons v vs ih =>
    have hg : ((s.guard_set v)).locked = false := by
      simpa [FusedRwLock.guard_set] using h
    have hobj : (s.guard_set v).object = v := rfl
    simp only [FusedRwLock.run_writes, try_write_open s h, ih _ hg, hobj]
    cases vs with
    | nil => simp
    | cons w ws =>
      have hirr := getLastD_default_irrel w ws v s.object
      simp [hirr]

/-- Iterating `lock` on an already-fused state is the identity. -/
lemma lock_iterate_fixed (s : FusedRwLock T) (n : Nat) :
    FusedRwLock.lock^[n] s.lock = s.lock := by
  induction n with
  | zero => rfl
  | succ m ih =>
    rw [Function.iterate_succ_apply]
    exact ih

end Helpers

/-- Claim C1: the spec (and the function's own doc comment) says `try_get_mut`
returns `Some` payload on an Open (unfused) lock and `None` on a Fused lock.
The code tests the flag the other way round: evaluated on a freshly
constructed (Open) lock it returns `none`, and on a fused lock it returns
`some` payload.  This theorem evaluates the code at the failing input. -/
theorem tryGetMut_condition_inverted :
    (FusedRwLock.new (0 : Nat)).is_locked = false ∧
    (FusedRwLock.new (0 : Nat)).try_get_mut = none ∧
    ({ locked := true, object := (0 : Nat) } : FusedRwLock Nat).try_get_mut
      = some 0 := by
  decide

/-- Claim C2: on every fused state `try_write` returns `None`, and it still
returns `None` after any further sequence of public-interface operations. -/
theorem tryWrite_none_forever_once_fused {T : Type} (s : FusedRwLock T)
    (h : s.locked = true) :
    (s.try_write).1 = none ∧
    ∀ ops : List (FusedRwLock.Op T),
      ((FusedRwLock.run s ops).try_write).1 = none := by
  refine ⟨try_write_fused s h, fun ops => ?_⟩
  exact try_write_fused _ (run_locked_mono s ops h)

/-- Witness for C2 at the concrete fused state `⟨true, 5⟩` and the operation
sequence `[lockOp]`. -/
theorem tryWrite_none_forever_once_fused_witness :
    ({ locked := true, object := (5 : Nat) } : FusedRwLock Nat).locked = true ∧
    (({ locked := true, object := (5 : Nat) } : FusedRwLock Nat).try_write).1
      = none ∧
    ((FusedRwLock.run ({ locked := true, object := (5 : Nat) } : FusedRwLock Nat)
        [FusedRwLock.Op.lockOp]).try_write).1 = none :=
  ⟨rfl,
   (tryWrite_none_forever_once_fused _ rfl).1,
   (tryWrite_none_forever_once_fused _ rfl).2 [FusedRwLock.Op.lockOp]⟩

/-- Claim C3: `try_read` returns `some` of the stored payload exactly when the
fuse flag is true, and `none` exactly when it is false. -/
theorem tryRead_some_iff_locked {T : Type} (s : FusedRwLock T) :
    (s.try_read = some s.object ↔ s.locked = true) ∧
    (s.try_read = none ↔ s.locked = false) := by
  cases s with
  | mk l o => cases l <;> simp [FusedRwLock.try_read]

/-- Claim C4: the fuse flag is monotone — no single public-interface operation
and no sequence of them transitions `is_locked` from true to false. -/
theorem is_locked_monotone {T : Type} (s : FusedRwLock T)
    (h : s.is_locked = true) :
    (∀ op : FusedRwLock.Op T, (s.step op).is_locked = true) ∧
    ∀ ops : List (FusedRwLock.Op T),
      (FusedRwLock.run s ops).is_locked = true := by
  refine ⟨fun op => step_locked_mono s op h, fun ops => run_locked_mono s ops h⟩

/-- Witness for C4 at the concrete fused state `⟨true, 0⟩`, one operation and
one operation sequence. -/
theorem is_locked_monotone_witness :
    ({ locked := true, object := (0 : Nat) } : FusedRwLock Nat).is_locked
      = true ∧
    (({ locked := true, object := (0 : Nat) } : FusedRwLock Nat).step
        (FusedRwLock.Op.tryWriteOp 9)).is_locked = true ∧
    (FusedRwLock.run ({ locked := true, object := (0 : Nat) } : FusedRwLock Nat)
        [FusedRwLock.Op.readOp, FusedRwLock.Op.tryWriteOp 9]).is_locked
      = true :=
  ⟨rfl,
   (is_locked_monotone
      ({ locked := true, object := (0 : Nat) } : FusedRwLock Nat) rfl).1
     (FusedRwLock.Op.tryWriteOp 9),
   (is_locked_monotone
      ({ locked := true, object := (0 : Nat) } : FusedRwLock Nat) rfl).2
     [FusedRwLock.Op.readOp, FusedRwLock.Op.tryWriteOp 9]⟩

/-- Claim C5: `read` never reaches the `unwrap` panic: on every state its
`try_read` result is populated with the final state's payload, and the lock is
left fused. -/
theorem read_never_fails {T : Type} (s : FusedRwLock T) :
    (s.read).1 = some ((s.read).2).object ∧ ((s.read).2).locked = true := by
  cases s with
  | mk l o =>
    cases l <;>
      simp [FusedRwLock.read, FusedRwLock.is_locked, FusedRwLock.lock,
        FusedRwLock.try_read]

/-- Claim C6: the concrete sequential scenario — construct with 0, write 1,
write 2, then `read` returns 2 leaving the lock fused, after which `try_write`
fails and `try_read` returns 2 — together with the general statement that any
sequence of write episodes performed before fusing all succeed, each guard
observing the value left by the previous episode, the final payload being the
last value written. -/
theorem sequential_writes_then_read_scenario :
    (((FusedRwLock.new (0 : Nat)).try_write).1 = some { inner := 0 } ∧
      (((FusedRwLock.new (0 : Nat)).guard_set 1).try_write).1
        = some { inner := 1 } ∧
      ((((FusedRwLock.new (0 : Nat)).guard_set 1).guard_set 2).read).1
        = some 2 ∧
      ((((FusedRwLock.new (0 : Nat)).guard_set 1).guard_set 2).read).2
        = { locked := true, object := 2 } ∧
      ((({ locked := true, object := 2 } : FusedRwLock Nat)).try_write).1
        = none ∧
      (({ locked := true, object := 2 } : FusedRwLock Nat)).try_read
        = some 2) ∧
    ∀ (T : Type) (s : FusedRwLock T) (vs : List T), s.locked = false →
      FusedRwLock.run_writes s vs =
        some ((s.object :: vs).dropLast,
          { locked := false, object := vs.getLastD s.object }) := by
  refine ⟨by decide, fun T s vs h => run_writes_open s vs h⟩

/-- Witness for C6's general part at `new 7` and writes `[1, 2]`: both
acquisitions succeed, observing `7` then `1`, and the final payload is `2`. -/
theorem sequential_writes_then_read_scenario_witness :
    (FusedRwLock.new (7 : Nat)).locked = false ∧
    FusedRwLock.run_writes (FusedRwLock.new (7 : Nat)) [1, 2] =
      some ([7, 1], { locked := false, object := 2 }) :=
  ⟨rfl, by
    have h := sequential_writes_then_read_scenario.2 Nat
      (FusedRwLock.new (7 : Nat)) [1, 2] rfl
    simpa using h⟩

/-- Claim C7: `lock` fuses the state, preserves the payload, and is idempotent:
iterating it any positive number of times equals calling it once. -/
theorem lock_idempotent_payload_preserving {T : Type} (s : FusedRwLock T) :
    (s.lock).locked = true ∧ (s.lock).object = s.object ∧
    (s.lock).lock = s.lock ∧
    ∀ n : Nat, FusedRwLock.lock^[n + 1] s = s.lock := by
  refine ⟨rfl, rfl, rfl, fun n => ?_⟩
  rw [Function.iterate_succ_apply]
  exact lock_iterate_fixed s n

/-- Claim C8: failure atomicity of `try_write` — whenever it returns `None`
(fast path or re-check), the fuse flag and the payload are exactly as before
the call. -/
theorem tryWrite_failure_atomicity {T : Type} (s : FusedRwLock T)
    (h : (s.try_write).1 = none) : (s.try_write).2 = s := by
  cases s with
  | mk l o => cases l <;> simp [FusedRwLock.try_write, FusedRwLock.is_locked]

/-- Witness for C8 at the concrete fused state `⟨true, 3⟩`. -/
theorem tryWrite_failure_atomicity_witness :
    ((({ locked := true, object := (3 : Nat) } : FusedRwLock Nat)).try_write).1
      = none ∧
    ((({ locked := true, object := (3 : Nat) } : FusedRwLock Nat)).try_write).2
      = { locked := true, object := 3 } :=
  ⟨by decide, tryWrite_failure_atomicity _ (by decide)⟩

/-- Claim C9: `into_inner` after `new` returns the constructed value with no
failure mode, and a freshly constructed lock is in the Open state. -/
theorem new_into_inner_roundtrip {T : Type} (x : T) :
    (FusedRwLock.new x).into_inner = x ∧
    (FusedRwLock.new x).is_locked = false :=
  ⟨rfl, rfl⟩
